import Mathlib

/-!
# Verification of the rag-api-server RAG orchestration core

Shallow embedding of `src/backend/ggml.rs`: the query pipeline
(`rag_query_handler`), the prompt merger (`RagPromptBuilder::build`) and the
file-upload gate (`files_handler`, POST branch).  External collaborators
(embedding model, Qdrant search, chat completion) are modelled as oracle
values carried in an environment; the filesystem writes of the upload handler
are modelled as an explicit list of write records.  Strings are Lean strings;
Rust `str::trim` / `str::trim_end` are modelled on the character list with
`Char.isWhitespace`.
-/

namespace RagApiServer

/-- Trailing-whitespace removal on a character list (Rust `str::trim_end`). -/
def trimEndList (l : List Char) : List Char :=
  (l.reverse.dropWhile Char.isWhitespace).reverse

/-- Rust `str::trim_end`: drop trailing whitespace. -/
def trimEndStr (s : String) : String :=
  ⟨trimEndList s.data⟩

/-- Rust `str::trim`: drop leading and trailing whitespace. -/
def trimStr (s : String) : String :=
  ⟨trimEndList (s.data.dropWhile Char.isWhitespace)⟩

/-- Type `ChatCompletionUserMessageContent` (endpoints crate): text, or a list of
content parts (the parts themselves are opaque to this core, so they are
modelled as plain strings). -/
inductive UserContent
  | text (s : String)
  | parts (ps : List String)
deriving DecidableEq, Repr

/-- Type `ChatCompletionRequestMessage` (endpoints crate).  `assistant` stands for
every non-system, non-user role; the source only ever pattern-matches those
as a wildcard. -/
inductive ChatMsg
  | system (content : String) (name : Option String)
  | user (content : UserContent) (name : Option String)
  | assistant (content : String) (name : Option String)
deriving DecidableEq, Repr

/-- The `name()` accessor of `ChatCompletionRequestMessage`. -/
def ChatMsg.name : ChatMsg → Option String
  | .system _ n => n
  | .user _ n => n
  | .assistant _ n => n

/-- Type `chat_prompts::error::PromptError`, restricted to the variants the merger
produces. -/
inductive PromptError
  | NoMessages
  | Operation (msg : String)
deriving DecidableEq, Repr

namespace RagPromptBuilder

/-- Function `RagPromptBuilder::build` from `src/backend/ggml.rs`.  The Rust function
mutates `messages` in place and returns `Result<()>`; here it returns the
result together with the (possibly updated) message list, so that
"unchanged on error" is expressible. -/
def build (messages : List ChatMsg) (context : List String) :
    Except PromptError Unit × List ChatMsg :=
  if messages.isEmpty then
    (.error .NoMessages, messages)
  else if context.isEmpty then
    (.error (.Operation "No context provided."), messages)
  else
    let ctx := trimEndStr (context.headD "")
    match messages with
    | ChatMsg.system content name :: rest =>
      let newContent := trimStr content ++ "\n" ++ trimEndStr ctx
      (.ok (), ChatMsg.system newContent name :: rest)
    | other => (.ok (), other)

end RagPromptBuilder

/-- A scored point returned by `rag_retrieve_context` (qdrant).  The payload
is a map from string keys to values; values are modelled by the string that
`Value::to_string()` renders them to, since the handler only ever stringifies
them. -/
structure ScoredPoint where
  score : Float
  payload : Option (List (String × String))

/-- The per-point lookup the handler performs: `point.payload` and then
`payload.get("source")`. -/
def payloadSource (p : ScoredPoint) : Option String :=
  match p.payload with
  | some payload => payload.lookup "source"
  | none => none

/-- Body of the context-accumulation loop of `rag_query_handler`
(lines 419-430): append the point's `source` payload followed by a blank
line, if present. -/
def contextStep (context : String) (point : ScoredPoint) : String :=
  match point.payload with
  | some payload =>
    match payload.lookup "source" with
    | some source => context ++ source ++ "\n\n"
    | none => context
  | none => context

/-- The context string accumulated over all scored points. -/
def buildContext (points : List ScoredPoint) : String :=
  points.foldl contextStep ""

/-- Type `QdrantConfig` (read from the global `QDRANT_CONFIG`). -/
structure QdrantConfig where
  url : String
  collectionName : String
  limit : Nat
  scoreThreshold : Float

/-- One embedding object of an `EmbeddingsResponse`. -/
structure EmbeddingObject where
  embedding : List Float

/-- Type `EmbeddingsResponse` returned by `rag_query_to_embeddings`. -/
structure EmbeddingResponse where
  data : List EmbeddingObject

/-- The fields of `ChatCompletionRequest` the handler reads. -/
structure ChatRequest where
  messages : List ChatMsg
  user : Option String
  stream : Option Bool

/-- The network collaborator calls the handler can make, in order. -/
inductive CollabCall
  | embed
  | search
  | complete
deriving DecidableEq, Repr

/-- Environment of the handler: the global configuration plus the oracle
answers of the external collaborators for this request.
`embeddingModelNames` models `llama_core::utils::embedding_model_names()`,
`embedResponse` the result of `llama_core::rag::rag_query_to_embeddings`,
`searchResult` the result of `llama_core::rag::rag_retrieve_context`, and
`globalRagPrompt` the global `GLOBAL_RAG_PROMPT`. -/
structure Env where
  qdrantConfig : Option QdrantConfig
  embeddingModelNames : Except String (List String)
  embedResponse : Except String EmbeddingResponse
  searchResult : Except String (List ScoredPoint)
  globalRagPrompt : Option String

/-- Outcome of `rag_query_handler`, after request parsing and before
response serialization.  `dispatched` records the message list and stream
flag handed to the chat-completion collaborator; `badRequest` is
`error::bad_request` (the spec's ValidationError); `internalError` is
`error::internal_server_error`; `panicked` models the Rust panic on
indexing an empty model-name vector. -/
inductive HandlerResult
  | dispatched (messages : List ChatMsg) (stream : Option Bool)
  | badRequest (msg : String)
  | internalError (msg : String)
  | panicked
deriving DecidableEq, Repr

/-- Display text of a `PromptError`, used when the handler converts the
merge error into an internal-server-error response (the exact wording of
`NoMessages` is owned by the chat-prompts crate and is not load-bearing). -/
def PromptError.display : PromptError → String
  | .NoMessages => "There must be at least one message to create a prompt from."
  | .Operation m => m

/-- Function `rag_query_handler` from `src/backend/ggml.rs` (lines 291-485), after
request deserialization, for non-OPTIONS requests.  Returns the handler
outcome together with the list of collaborator calls made, in order. -/
def rag_query_handler (env : Env) (chat_request : ChatRequest) :
    HandlerResult × List CollabCall :=
  match env.qdrantConfig with
  | none => (.internalError "The Qdrant config is not set.", [])
  | some _qdrant_config =>
    match chat_request.messages.getLast? with
    | none => (.badRequest "Messages should not be empty", [])
    | some (ChatMsg.user (UserContent.text _query_text) _) =>
      match env.embeddingModelNames with
      | .error e => (.internalError e, [])
      | .ok embedding_model_names =>
        match embedding_model_names.head? with
        | none => (.panicked, [])
        | some _model =>
          match env.embedResponse with
          | .error e => (.internalError e, [.embed])
          | .ok embedding_response =>
            match embedding_response.data.head? with
            | none => (.internalError "No embeddings returned", [.embed])
            | some _first_embedding =>
              let scored_points :=
                match env.searchResult with
                | .ok search_result => search_result
                | .error _ => []
              if scored_points.isEmpty then
                (.dispatched chat_request.messages chat_request.stream,
                 [.embed, .search, .complete])
              else
                let context := buildContext scored_points
                match chat_request.messages with
                | [] =>
                  (.internalError "No message in the chat request.",
                   [.embed, .search])
                | first :: rest =>
                  match env.globalRagPrompt with
                  | none =>
                    (.internalError "The global rag prompt is not set.",
                     [.embed, .search])
                  | some global_rag_prompt =>
                    let messages1 :=
                      match first with
                      | ChatMsg.system _ _ =>
                        ChatMsg.system global_rag_prompt first.name :: rest
                      | _ =>
                        ChatMsg.system global_rag_prompt first.name
                          :: first :: rest
                    match RagPromptBuilder.build messages1 [context] with
                    | (.error e, _) =>
                      (.internalError e.display, [.embed, .search])
                    | (.ok _, messages2) =>
                      (.dispatched messages2 chat_request.stream,
                       [.embed, .search, .complete])
    | some (ChatMsg.user _ _) =>
      (.badRequest "The last message must be a text content user message", [])
    | some _ =>
      (.badRequest "The last message must be a user message", [])

/-- The validation shape the query handler requires of the conversation:
its last message exists, is user-authored, and carries text content. -/
def lastIsTextUser (messages : List ChatMsg) : Prop :=
  ∃ q n, messages.getLast? = some (ChatMsg.user (UserContent.text q) n)

/-- Type `FileObject` (endpoints crate), as built by `files_handler`. -/
structure FileObject where
  id : String
  bytes : Nat
  created_at : Nat
  filename : String
  object : String
  purpose : String
deriving DecidableEq, Repr

/-- One multipart form field of the upload request: its field name, the
optional client-supplied filename, and the field data bytes (reading the
field data is modelled as infallible). -/
structure MultipartField where
  name : String
  filename : Option String
  data : List UInt8
deriving DecidableEq, Repr

/-- One filesystem write performed by the upload handler: the archive
subdirectory `archives/<id>`, the filename inside it, and the bytes. -/
structure ArchiveWrite where
  dir : String
  filename : String
  data : List UInt8
deriving DecidableEq, Repr

/-- Outcome of the upload: the serialized `FileObject` on success, or the
`internal_server_error` message on rejection. -/
inductive UploadOutcome
  | ok (fo : FileObject)
  | err (msg : String)
deriving DecidableEq, Repr

/-- Rust `str::to_lowercase`, modelled character-wise (sufficient for ASCII
filename extensions). -/
def toLowerStr (s : String) : String :=
  ⟨s.data.map Char.toLower⟩

/-- Rust `str::ends_with`. -/
def endsWithStr (s suffix : String) : Bool :=
  suffix.data.isSuffixOf s.data

/-- The extension gate of `files_handler` / `doc_to_embeddings`:
`filename.to_lowercase().ends_with(".txt") || filename.to_lowercase().ends_with(".md")`. -/
def allowListed (filename : String) : Bool :=
  endsWithStr (toLowerStr filename) ".txt" || endsWithStr (toLowerStr filename) ".md"

/-- The POST branch of `files_handler` from `src/backend/ggml.rs`
(lines 526-644): walk the multipart fields until the first one named
"file", gate on the filename extension, then archive the bytes under a
fresh id and build the `FileObject`.  The fresh UUID and the current unix
time are passed in as parameters (they are generated effectfully in Rust);
filesystem writes are returned as explicit records. -/
def files_handler (fields : List MultipartField) (fresh_uuid : String)
    (now : Nat) : UploadOutcome × List ArchiveWrite :=
  match fields with
  | [] =>
    (.err "Failed to upload the target file. Not found the target file.", [])
  | field :: rest =>
    if field.name = "file" then
      match field.filename with
      | none =>
        (.err "Failed to upload the target file. The filename is not provided.",
         [])
      | some filename =>
        if !(endsWithStr (toLowerStr filename) ".txt"
            || endsWithStr (toLowerStr filename) ".md") then
          (.err "Failed to upload the target file. Only files with txt and md extensions are supported.",
           [])
        else
          let size_in_bytes := field.data.length
          let id := "file_" ++ fresh_uuid
          (.ok { id := id, bytes := size_in_bytes, created_at := now,
                 filename := filename, object := "file",
                 purpose := "assistants" },
           [⟨"archives/" ++ id, filename, field.data⟩])
    else
      files_handler rest fresh_uuid now

/-- Right-concatenation of a list of strings, used to state what the
context-accumulation loop produces. -/
def concatStrings : List String → String
  | [] => ""
  | s :: rest => s ++ concatStrings rest

theorem dropWhile_idem (p : Char → Bool) (l : List Char) :
    List.dropWhile p (List.dropWhile p l) = List.dropWhile p l := by
  induction l with
  | nil => rfl
  | cons x xs ih =>
    by_cases h : p x
    · simp [List.dropWhile_cons, h, ih]
    · simp [List.dropWhile_cons, h]

theorem trimEndList_idem (l : List Char) :
    trimEndList (trimEndList l) = trimEndList l := by
  simp [trimEndList, dropWhile_idem]

theorem trimEndStr_idem (s : String) :
    trimEndStr (trimEndStr s) = trimEndStr s := by
  cases s with
  | mk data => simp [trimEndStr, trimEndList_idem]

theorem trimEndStr_empty : trimEndStr "" = "" := rfl

/-- The merger on a non-empty message list with a system head and a
non-empty context list: success, head content rebuilt. -/
theorem build_system_head (content : String) (name : Option String)
    (rest : List ChatMsg) (ctx : String) (ctxs : List String) :
    RagPromptBuilder.build (ChatMsg.system content name :: rest) (ctx :: ctxs) =
      (.ok (),
       ChatMsg.system (trimStr content ++ "\n" ++ trimEndStr ctx) name :: rest) := by
  simp [RagPromptBuilder.build, trimEndStr_idem]

/-- One step of the context loop, phrased through `payloadSource`. -/
theorem contextStep_eq (acc : String) (p : ScoredPoint) :
    contextStep acc p =
      acc ++ (match payloadSource p with
              | some source => source ++ "\n\n"
              | none => "") := by
  unfold contextStep payloadSource
  cases hp : p.payload with
  | none => simp [String.append_empty]
  | some payload =>
    cases hq : List.lookup "source" payload with
    | none => simp [hq, String.append_empty]
    | some source => simp [hq, String.append_assoc]

/-- The context loop, fully characterised with a generalized accumulator. -/
theorem foldl_contextStep (points : List ScoredPoint) (acc : String) :
    points.foldl contextStep acc =
      acc ++ concatStrings
        ((points.filterMap payloadSource).map (fun s => s ++ "\n\n")) := by
  induction points generalizing acc with
  | nil => simp [concatStrings, String.append_empty]
  | cons p ps ih =>
    rw [List.foldl_cons, ih, contextStep_eq]
    cases hp : payloadSource p with
    | none => simp [hp, List.filterMap_cons, String.append_empty]
    | some s =>
      simp [hp, List.filterMap_cons, concatStrings, String.append_assoc]

/-- If no point carries a `source` payload, the accumulated context is
empty. -/
theorem buildContext_no_sources (pts : List ScoredPoint)
    (h : ∀ p ∈ pts, payloadSource p = none) : buildContext pts = "" := by
  have hnil : pts.filterMap payloadSource = [] :=
    List.filterMap_eq_nil_iff.mpr h
  rw [buildContext, foldl_contextStep, hnil]
  simp [concatStrings, String.append_empty]

/-- C5: for every non-empty message list whose first message is a system
message, and every non-empty context list, the merge succeeds and the first
message becomes a system message whose content is the trimmed original
content, a newline, and the first context string with trailing whitespace
trimmed; in particular merging `[{system, "Base"}]` with `["Ctx"]` yields
`[{system, "Base\nCtx"}]`. -/
theorem c5_merge_system_head :
    (∀ (content : String) (name : Option String) (rest : List ChatMsg)
        (ctx : String) (ctxs : List String),
      RagPromptBuilder.build (ChatMsg.system content name :: rest)
          (ctx :: ctxs) =
        (.ok (),
         ChatMsg.system (trimStr content ++ "\n" ++ trimEndStr ctx) name
           :: rest))
    ∧ RagPromptBuilder.build [ChatMsg.system "Base" none] ["Ctx"] =
        (.ok (), [ChatMsg.system "Base\nCtx" none]) :=
  ⟨build_system_head, by rfl⟩

/-- C6: the merger fails with `NoMessages` on an empty message list
(whatever the context), and with the no-context operation error on a
non-empty message list with an empty context list; in both cases the
message list is returned unchanged. -/
theorem c6_merge_error_guards :
    (∀ context : List String,
      RagPromptBuilder.build [] context = (.error .NoMessages, []))
    ∧ (∀ (first : ChatMsg) (rest : List ChatMsg),
      RagPromptBuilder.build (first :: rest) [] =
        (.error (.Operation "No context provided."), first :: rest)) :=
  ⟨fun _ => rfl, fun _ _ => rfl⟩

/-- C10: on a non-empty message list whose head is not a system message,
and a non-empty context list, the merger succeeds and returns the message
list unchanged — the context is silently dropped. -/
theorem c10_non_system_head_unchanged (first : ChatMsg)
    (rest : List ChatMsg) (ctx : String) (ctxs : List String)
    (h : ∀ c n, first ≠ ChatMsg.system c n) :
    RagPromptBuilder.build (first :: rest) (ctx :: ctxs) =
      (.ok (), first :: rest) := by
  cases first with
  | system c n => exact absurd rfl (h c n)
  | user uc n => rfl
  | assistant c n => rfl

theorem c10_non_system_head_unchanged_witness :
    RagPromptBuilder.build [ChatMsg.user (UserContent.text "q") none]
        ["Ctx"] =
      (.ok (), [ChatMsg.user (UserContent.text "q") none]) :=
  c10_non_system_head_unchanged (ChatMsg.user (UserContent.text "q") none)
    [] "Ctx" [] (fun _ _ h => nomatch h)

/-- C7 (amended): the context string accumulated from the retrieved points
is the concatenation, in result order, of each point's `source` payload
field with a blank-line separator appended after every source — including
a trailing separator after the last one (the claim's
"separated by exactly one blank line", i.e. a separator only between
consecutive sources, does not hold). -/
theorem c7_context_concatenation (points : List ScoredPoint) :
    buildContext points =
      concatStrings
        ((points.filterMap payloadSource).map (fun s => s ++ "\n\n")) := by
  rw [buildContext, foldl_contextStep]
  exact String.empty_append _

/-- C7 counterexample: with a single retrieved point whose source is
`"Ctx"`, the accumulated context string is `"Ctx\n\n"`, not the
blank-line-separated concatenation `"Ctx"` the claim describes. -/
theorem c7_counterexample :
    buildContext [⟨0.5, some [("source", "Ctx")]⟩] = "Ctx\n\n"
    ∧ "Ctx\n\n" ≠ String.intercalate "\n\n" ["Ctx"] :=
  ⟨rfl, by decide⟩

/-- The retrieved-points path of the query handler: when the configuration
and global prompt are set, the conversation shape is valid, the embedding
succeeded with at least one embedding object, and the search returned a
non-empty point list, the handler dispatches a conversation whose head is a
system message carrying the trimmed global prompt, a newline, and the
trailing-trimmed accumulated context; the head replaces an original system
head and is inserted in front of anything else. -/
theorem rag_query_handler_retrieved (env : Env) (req : ChatRequest)
    (qc : QdrantConfig) (q : String) (un : Option String)
    (names : List String) (mname : String) (er : EmbeddingResponse)
    (emb : EmbeddingObject) (pts : List ScoredPoint) (prompt : String)
    (first : ChatMsg) (rest : List ChatMsg)
    (hqc : env.qdrantConfig = some qc)
    (hmsgs : req.messages = first :: rest)
    (hlast : req.messages.getLast? =
      some (ChatMsg.user (UserContent.text q) un))
    (hnames : env.embeddingModelNames = .ok names)
    (hhd : names.head? = some mname)
    (her : env.embedResponse = .ok er)
    (hdata : er.data.head? = some emb)
    (hsearch : env.searchResult = .ok pts)
    (hne : pts ≠ [])
    (hprompt : env.globalRagPrompt = some prompt) :
    rag_query_handler env req =
      (.dispatched
        (ChatMsg.system
            (trimStr prompt ++ "\n" ++ trimEndStr (buildContext pts))
            first.name ::
          (match first with
           | ChatMsg.system _ _ => rest
           | _ => first :: rest))
        req.stream,
       [.embed, .search, .complete]) := by
  rw [hmsgs] at hlast
  cases pts with
  | nil => exact absurd rfl hne
  | cons p ps =>
    cases first with
    | system c n =>
      simp [rag_query_handler, hqc, hlast, hnames, hhd, her, hdata, hsearch,
        hmsgs, hprompt, build_system_head, ChatMsg.name]
    | user uc n =>
      simp [rag_query_handler, hqc, hlast, hnames, hhd, her, hdata, hsearch,
        hmsgs, hprompt, build_system_head, ChatMsg.name]
    | assistant c n =>
      simp [rag_query_handler, hqc, hlast, hnames, hhd, her, hdata, hsearch,
        hmsgs, hprompt, build_system_head, ChatMsg.name]

/-- C1 (amended): with at least one scored point retrieved, the dispatched
conversation's index 0 is a system message whose content is the *trimmed*
configured global base prompt, a newline, and the retrieved context with
trailing whitespace trimmed; an original system head is replaced (its
content discarded), and when index 0 was not a system message a new system
message is inserted at index 0 rather than appended. -/
theorem c1_system_prompt_rewrite (env : Env) (req : ChatRequest)
    (qc : QdrantConfig) (q : String) (un : Option String)
    (names : List String) (mname : String) (er : EmbeddingResponse)
    (emb : EmbeddingObject) (pts : List ScoredPoint) (prompt : String)
    (first : ChatMsg) (rest : List ChatMsg)
    (hqc : env.qdrantConfig = some qc)
    (hmsgs : req.messages = first :: rest)
    (hlast : req.messages.getLast? =
      some (ChatMsg.user (UserContent.text q) un))
    (hnames : env.embeddingModelNames = .ok names)
    (hhd : names.head? = some mname)
    (her : env.embedResponse = .ok er)
    (hdata : er.data.head? = some emb)
    (hsearch : env.searchResult = .ok pts)
    (hne : pts ≠ [])
    (hprompt : env.globalRagPrompt = some prompt) :
    rag_query_handler env req =
      (.dispatched
        (ChatMsg.system
            (trimStr prompt ++ "\n" ++ trimEndStr (buildContext pts))
            first.name ::
          (match first with
           | ChatMsg.system _ _ => rest
           | _ => first :: rest))
        req.stream,
       [.embed, .search, .complete]) :=
  rag_query_handler_retrieved env req qc q un names mname er emb pts prompt
    first rest hqc hmsgs hlast hnames hhd her hdata hsearch hne hprompt

theorem c1_system_prompt_rewrite_witness :
    rag_query_handler
        ⟨some ⟨"u", "c", 1, 0.5⟩, .ok ["m"], .ok ⟨[⟨[]⟩]⟩,
          .ok [⟨0.5, some [("source", "Ctx")]⟩], some "Base"⟩
        ⟨[ChatMsg.system "orig" (some "nm"),
          ChatMsg.user (UserContent.text "hi") none], none, some true⟩ =
      (.dispatched
        [ChatMsg.system
            (trimStr "Base" ++ "\n"
              ++ trimEndStr (buildContext [⟨0.5, some [("source", "Ctx")]⟩]))
            (some "nm"),
         ChatMsg.user (UserContent.text "hi") none]
        (some true),
       [.embed, .search, .complete]) :=
  c1_system_prompt_rewrite _ _ ⟨"u", "c", 1, 0.5⟩ "hi" none ["m"] "m"
    ⟨[⟨[]⟩]⟩ ⟨[]⟩ [⟨0.5, some [("source", "Ctx")]⟩] "Base"
    (ChatMsg.system "orig" (some "nm"))
    [ChatMsg.user (UserContent.text "hi") none]
    rfl rfl rfl rfl rfl rfl rfl rfl (by simp) rfl

/-- C1 counterexample: the merged content is built from the global base
prompt after `trim`, not from the base prompt verbatim; with base prompt
`"Base "` (trailing space) and retrieved source `" Ctx"` (leading space)
the dispatched system content is `"Base\n Ctx"`, which differs both from
base-prompt-verbatim + newline + fully-trimmed context and from
base-prompt-verbatim + newline + trailing-trimmed context. -/
theorem c1_counterexample :
    rag_query_handler
        ⟨some ⟨"u", "c", 1, 0.5⟩, .ok ["m"], .ok ⟨[⟨[]⟩]⟩,
          .ok [⟨0.5, some [("source", " Ctx")]⟩], some "Base "⟩
        ⟨[ChatMsg.user (UserContent.text "hi") none], none, none⟩ =
      (.dispatched
        [ChatMsg.system "Base\n Ctx" none,
         ChatMsg.user (UserContent.text "hi") none] none,
       [.embed, .search, .complete])
    ∧ "Base\n Ctx" ≠ "Base " ++ "\n" ++ "Ctx"
    ∧ "Base\n Ctx" ≠ "Base " ++ "\n" ++ " Ctx" :=
  ⟨rfl, by decide, by decide⟩

/-- C2: when the retrieval configuration is set but the conversation is
empty, or its last message is not user-authored, or the last user message
carries non-text content, the handler rejects the request as a bad request
(the spec's ValidationError) with zero collaborator calls made. -/
theorem c2_validation_fail_fast (env : Env) (req : ChatRequest)
    (qc : QdrantConfig) (hqc : env.qdrantConfig = some qc)
    (hbad : ¬ lastIsTextUser req.messages) :
    ∃ msg, rag_query_handler env req = (.badRequest msg, []) := by
  cases hl : req.messages.getLast? with
  | none =>
    exact ⟨"Messages should not be empty",
      by simp [rag_query_handler, hqc, hl]⟩
  | some m =>
    cases m with
    | system c n =>
      exact ⟨"The last message must be a user message",
        by simp [rag_query_handler, hqc, hl]⟩
    | user uc n =>
      cases uc with
      | text q => exact absurd ⟨q, n, hl⟩ hbad
      | parts ps =>
        exact ⟨"The last message must be a text content user message",
          by simp [rag_query_handler, hqc, hl]⟩
    | assistant c n =>
      exact ⟨"The last message must be a user message",
        by simp [rag_query_handler, hqc, hl]⟩

theorem c2_validation_fail_fast_witness :
    ∃ msg, rag_query_handler
        ⟨some ⟨"u", "c", 1, 0.5⟩, .ok ["m"], .ok ⟨[⟨[]⟩]⟩, .ok [], none⟩
        ⟨[], none, none⟩ = (.badRequest msg, []) :=
  c2_validation_fail_fast _ _ ⟨"u", "c", 1, 0.5⟩ rfl
    (by simp [lastIsTextUser])

/-- C3: when the vector-store search call fails, the handler does not fail
the request: it proceeds with zero retrieved points, leaves the messages
untouched, and still dispatches them to the completion collaborator. -/
theorem c3_search_failure_degrades (env : Env) (req : ChatRequest)
    (qc : QdrantConfig) (q : String) (un : Option String)
    (names : List String) (mname : String) (er : EmbeddingResponse)
    (emb : EmbeddingObject) (e : String)
    (hqc : env.qdrantConfig = some qc)
    (hlast : req.messages.getLast? =
      some (ChatMsg.user (UserContent.text q) un))
    (hnames : env.embeddingModelNames = .ok names)
    (hhd : names.head? = some mname)
    (her : env.embedResponse = .ok er)
    (hdata : er.data.head? = some emb)
    (hsearch : env.searchResult = .error e) :
    rag_query_handler env req =
      (.dispatched req.messages req.stream,
       [.embed, .search, .complete]) := by
  simp [rag_query_handler, hqc, hlast, hnames, hhd, her, hdata, hsearch]

theorem c3_search_failure_degrades_witness :
    rag_query_handler
        ⟨some ⟨"u", "c", 1, 0.5⟩, .ok ["m"], .ok ⟨[⟨[]⟩]⟩,
          .error "boom", some "Base"⟩
        ⟨[ChatMsg.user (UserContent.text "hi") none], none, none⟩ =
      (.dispatched [ChatMsg.user (UserContent.text "hi") none] none,
       [.embed, .search, .complete]) :=
  c3_search_failure_degrades _ _ ⟨"u", "c", 1, 0.5⟩ "hi" none ["m"] "m"
    ⟨[⟨[]⟩]⟩ ⟨[]⟩ "boom" rfl rfl rfl rfl rfl rfl rfl

/-- C4: when the search succeeds but returns no points, the handler
dispatches exactly the caller-supplied message list — no system-prompt
rewrite, insertion or content change. -/
theorem c4_no_points_no_rewrite (env : Env) (req : ChatRequest)
    (qc : QdrantConfig) (q : String) (un : Option String)
    (names : List String) (mname : String) (er : EmbeddingResponse)
    (emb : EmbeddingObject)
    (hqc : env.qdrantConfig = some qc)
    (hlast : req.messages.getLast? =
      some (ChatMsg.user (UserContent.text q) un))
    (hnames : env.embeddingModelNames = .ok names)
    (hhd : names.head? = some mname)
    (her : env.embedResponse = .ok er)
    (hdata : er.data.head? = some emb)
    (hsearch : env.searchResult = .ok []) :
    rag_query_handler env req =
      (.dispatched req.messages req.stream,
       [.embed, .search, .complete]) := by
  simp [rag_query_handler, hqc, hlast, hnames, hhd, her, hdata, hsearch]

theorem c4_no_points_no_rewrite_witness :
    rag_query_handler
        ⟨some ⟨"u", "c", 1, 0.5⟩, .ok ["m"], .ok ⟨[⟨[]⟩]⟩,
          .ok [], some "Base"⟩
        ⟨[ChatMsg.system "orig" none,
          ChatMsg.user (UserContent.text "hi") none], none, none⟩ =
      (.dispatched
        [ChatMsg.system "orig" none,
         ChatMsg.user (UserContent.text "hi") none] none,
       [.embed, .search, .complete]) :=
  c4_no_points_no_rewrite _ _ ⟨"u", "c", 1, 0.5⟩ "hi" none ["m"] "m"
    ⟨[⟨[]⟩]⟩ ⟨[]⟩ rfl rfl rfl rfl rfl rfl rfl

/-- C9: when points are retrieved but none carries a `source` payload
field, the system-prompt replacement still happens: the dispatched head is
a system message whose content is the trimmed global prompt followed by a
newline only (the context contribution is empty), so the rewrite is
triggered by the point count alone, not by the presence of context text. -/
theorem c9_replacement_without_sources (env : Env) (req : ChatRequest)
    (qc : QdrantConfig) (q : String) (un : Option String)
    (names : List String) (mname : String) (er : EmbeddingResponse)
    (emb : EmbeddingObject) (pts : List ScoredPoint) (prompt : String)
    (first : ChatMsg) (rest : List ChatMsg)
    (hqc : env.qdrantConfig = some qc)
    (hmsgs : req.messages = first :: rest)
    (hlast : req.messages.getLast? =
      some (ChatMsg.user (UserContent.text q) un))
    (hnames : env.embeddingModelNames = .ok names)
    (hhd : names.head? = some mname)
    (her : env.embedResponse = .ok er)
    (hdata : er.data.head? = some emb)
    (hsearch : env.searchResult = .ok pts)
    (hne : pts ≠ [])
    (hnosrc : ∀ p ∈ pts, payloadSource p = none)
    (hprompt : env.globalRagPrompt = some prompt) :
    rag_query_handler env req =
      (.dispatched
        (ChatMsg.system (trimStr prompt ++ "\n") first.name ::
          (match first with
           | ChatMsg.system _ _ => rest
           | _ => first :: rest))
        req.stream,
       [.embed, .search, .complete]) := by
  have h := rag_query_handler_retrieved env req qc q un names mname er emb
    pts prompt first rest hqc hmsgs hlast hnames hhd her hdata hsearch hne
    hprompt
  rw [buildContext_no_sources pts hnosrc, trimEndStr_empty,
    String.append_empty] at h
  exact h

theorem c9_replacement_without_sources_witness :
    rag_query_handler
        ⟨some ⟨"u", "c", 1, 0.5⟩, .ok ["m"], .ok ⟨[⟨[]⟩]⟩,
          .ok [⟨0.5, none⟩, ⟨0.5, some [("other", "x")]⟩], some "Base"⟩
        ⟨[ChatMsg.user (UserContent.text "hi") none], none, none⟩ =
      (.dispatched
        [ChatMsg.system (trimStr "Base" ++ "\n") none,
         ChatMsg.user (UserContent.text "hi") none] none,
       [.embed, .search, .complete]) :=
  c9_replacement_without_sources _ _ ⟨"u", "c", 1, 0.5⟩ "hi" none ["m"] "m"
    ⟨[⟨[]⟩]⟩ ⟨[]⟩ [⟨0.5, none⟩, ⟨0.5, some [("other", "x")]⟩] "Base"
    (ChatMsg.user (UserContent.text "hi") none) []
    rfl rfl rfl rfl rfl rfl rfl rfl (by simp) (by decide) rfl

/-- C8: the upload handler rejects any file field whose filename does not
end (case-insensitively) in `.txt` or `.md`, writing nothing to the
archive; on an allow-listed filename it archives the bytes under a fresh
id and returns a `FileObject` carrying that id, the original filename, the
byte count and the creation timestamp. -/
theorem c8_upload_gate (filename : String) (data : List UInt8)
    (fresh_uuid : String) (now : Nat) :
    (allowListed filename = false →
      files_handler [⟨"file", some filename, data⟩] fresh_uuid now =
        (.err "Failed to upload the target file. Only files with txt and md extensions are supported.",
         []))
    ∧ (allowListed filename = true →
      files_handler [⟨"file", some filename, data⟩] fresh_uuid now =
        (.ok ⟨"file_" ++ fresh_uuid, data.length, now, filename, "file",
              "assistants"⟩,
         [⟨"archives/" ++ ("file_" ++ fresh_uuid), filename, data⟩])) := by
  constructor
  · intro h
    unfold allowListed at h
    simp [files_handler, h]
  · intro h
    unfold allowListed at h
    simp [files_handler, h]

theorem c8_upload_gate_witness :
    files_handler [⟨"file", some "doc.pdf", [65]⟩] "u1" 7 =
      (.err "Failed to upload the target file. Only files with txt and md extensions are supported.",
       [])
    ∧ files_handler [⟨"file", some "Doc.TXT", [65, 66]⟩] "u1" 7 =
      (.ok ⟨"file_u1", 2, 7, "Doc.TXT", "file", "assistants"⟩,
       [⟨"archives/file_u1", "Doc.TXT", [65, 66]⟩]) :=
  ⟨(c8_upload_gate "doc.pdf" [65] "u1" 7).1 (by decide),
   (c8_upload_gate "Doc.TXT" [65, 66] "u1" 7).2 (by decide)⟩

end RagApiServer
